import Mathlib

/-!
Verification of the synchronization subsystem of the WaterMeterSync repository.

The definitions below are a shallow embedding of `src/lib/syncService.ts`
together with the local SQLite layer (`src/lib/database.ts`) and the
AsyncStorage layer (`storage.ts`).  Promises and SQL statements are modelled
as pure state transformers; wall-clock time inside the retry helper is an
explicit natural-number counter (milliseconds); the `AbortSignal` is modelled
by the instant at which it fires.  Remote calls and local writes are recorded
in an explicit event trace so that claims about "zero remote calls" are
expressible.
-/

namespace WaterMeterSync

/-! ### Error classification (`isPrematureCloseError`, syncService.ts lines 78-93)

The source lowercases `error.message` (and, redundantly for these patterns,
`error.toString()`) and looks for a fixed set of substrings.  We model an
error by its message string. -/

/-- Boolean test that `needle` occurs as a contiguous substring of `hay`,
on the character lists of the strings. -/
def listContainsSub (needle : List Char) : List Char → Bool
  | [] => needle.isEmpty
  | c :: rest => needle.isPrefixOf (c :: rest) || listContainsSub needle rest

/-- Substring test after lowercasing the message, as the source does with
`error.message?.toLowerCase()`. -/
def msgContains (msg pat : String) : Bool :=
  listContainsSub pat.toList (msg.toList.map Char.toLower)

/-- Embedding of `isPrematureCloseError` (syncService.ts lines 78-93): an
error is "premature close"-like iff its lowercased message contains one of
six fixed substrings.  Note that no timeout, reset or DNS pattern appears. -/
def isPrematureCloseError (msg : String) : Bool :=
  msgContains msg "premature close" ||
  msgContains msg "unexpected end of stream" ||
  msgContains msg "unexpected end of file" ||
  msgContains msg "connection closed" ||
  msgContains msg "connection terminated" ||
  msgContains msg "socket closed"

/-! ### The retry helper (`retryOnPrematureClose`, syncService.ts lines 96-165)

One attempt of the wrapped operation is an outcome together with the time the
attempt took.  The abort signal is modelled by the optional instant `fireAt`
at which it fires; `signal?.aborted` at time `t` is `fireAt ≤ t`. -/

/-- Outcome of one invocation of the wrapped operation: success, or a
rejection carrying an error message. -/
inductive AttemptResult where
  | ok
  | fail (msg : String)
deriving DecidableEq

/-- The options record of `retryOnPrematureClose`, with the source's default
values (lines 106-112). -/
structure RetryOptions where
  maxRetries : Nat := 5
  initialDelay : Nat := 1000
  maxDelay : Nat := 15000
deriving DecidableEq

/-- Whether the abort signal has fired by time `t`. -/
def signalAborted (fireAt : Option Nat) (t : Nat) : Bool :=
  match fireAt with
  | none => false
  | some ft => decide (ft ≤ t)

/-- Result of a run of the retry helper: the final value or thrown error
message, the start times of the operation invocations that were actually
made, and the time at which the helper returned. -/
inductive RetryOutcome where
  | succeeded (starts : List Nat) (finishedAt : Nat)
  | thrown (msg : String) (starts : List Nat) (finishedAt : Nat)
deriving DecidableEq

/-- Start times of the attempts actually made during a run. -/
def attemptStarts : RetryOutcome → List Nat
  | .succeeded starts _ => starts
  | .thrown _ starts _ => starts

/-- The `for (attempt = 1; attempt <= maxRetries + 1; ...)` loop of
`retryOnPrematureClose` (lines 117-162), processed over the explicit list of
attempt indices.  Per iteration: the `signal?.aborted` check at the top of the
try block throws, is caught, and is re-thrown as the "Operation aborted" error
(lines 120-122 and 134-137); on a failed attempt the signal is checked again;
a retryable (premature-close) failure within the retry budget sleeps the
current backoff delay with a *plain* `setTimeout` promise that does not
observe the signal (line 147), so the full delay always elapses; the delay
then doubles, capped at `maxDelay` (line 148).  Non-premature-close errors and
budget exhaustion propagate the error (lines 149-160). -/
def retryGo (op : Nat → AttemptResult × Nat) (fireAt : Option Nat)
    (maxRetries maxDelay : Nat) :
    List Nat → Nat → Nat → List Nat → String → RetryOutcome
  | [], _, t, starts, lastMsg => .thrown lastMsg starts t
  | attempt :: rest, d, t, starts, lastMsg =>
    if signalAborted fireAt t then .thrown "Operation aborted" starts t
    else
      match op attempt with
      | (.ok, dur) => .succeeded (starts ++ [t]) (t + dur)
      | (.fail msg, dur) =>
        let t1 := t + dur
        let starts1 := starts ++ [t]
        if signalAborted fireAt t1 then .thrown "Operation aborted" starts1 t1
        else if decide (attempt ≤ maxRetries) && isPrematureCloseError msg then
          retryGo op fireAt maxRetries maxDelay rest (min (d * 2) maxDelay)
            (t1 + d) starts1 msg
        else
          .thrown msg starts1 t1

/-- Embedding of `retryOnPrematureClose` (lines 96-165): attempts are numbered
`1 .. maxRetries + 1`, starting at time `0` with the initial backoff delay. -/
def retryOnPrematureClose (op : Nat → AttemptResult × Nat) (fireAt : Option Nat)
    (opts : RetryOptions) : RetryOutcome :=
  retryGo op fireAt opts.maxRetries opts.maxDelay
    (List.range' 1 (opts.maxRetries + 1)) opts.initialDelay 0 [] ""

/-- All attempt start times of a run lie strictly before the instant `ft`. -/
def allStartsBefore (out : RetryOutcome) (ft : Nat) : Bool :=
  (attemptStarts out).all (fun s => decide (s < ft))

/-! ### Local database rows (database.ts, `initDatabase`)

Tables are modelled as lists of rows; the `id TEXT PRIMARY KEY` column is the
key of each `INSERT OR IGNORE`. -/

/-- Row of the `roteiros` table. -/
structure RoteiroRow where
  id : String
  leiturista_id : String
  rua_id : String
  dia_semana : String
deriving DecidableEq

/-- Row of the `bairros` table. -/
structure BairroRow where
  id : String
  nome : String
  cidade : String
deriving DecidableEq

/-- Row of the `ruas` table. -/
structure RuaRow where
  id : String
  nome : String
  bairro_id : String
deriving DecidableEq

/-- Row of the `residencias` table. -/
structure ResidenciaRow where
  id : String
  rua_id : String
  numero : Int
deriving DecidableEq

/-- Row of the `clientes` table. -/
structure ClienteRow where
  id : String
  nome : String
  telefone : String
  email : String
  cpf : String
  residencia_id : String
deriving DecidableEq

/-- Row of the `leituras` table (the up-synced meter readings).  The
`sincronizado` column is `0` (pending) or `1` (synced). -/
structure Leitura where
  id : String
  residencia_id : String
  cliente_id : String
  leiturista_id : String
  leitura_valor : String
  foto_path : String
  status : String
  data_leitura : String
  hora_leitura : String
  sincronizado : Nat
deriving DecidableEq

/-- The local SQLite database state, restricted to the tables the sync
engine touches. -/
structure LocalDB where
  roteiros : List RoteiroRow
  bairros : List BairroRow
  ruas : List RuaRow
  residencias : List ResidenciaRow
  clientes : List ClienteRow
  leituras : List Leitura
deriving DecidableEq

/-- The empty local database. -/
def emptyLocalDB : LocalDB := ⟨[], [], [], [], [], []⟩

/-- One `INSERT OR IGNORE` statement executed by the down-sync loop. -/
inductive InsertOp where
  | roteiro (r : RoteiroRow)
  | bairro (b : BairroRow)
  | rua (r : RuaRow)
  | residencia (r : ResidenciaRow)
  | cliente (c : ClienteRow)
deriving DecidableEq

/-- Semantics of `INSERT OR IGNORE` on one table: if a row with the same
primary key already exists the statement is a no-op, otherwise the row is
appended; an existing row is never overwritten. -/
def insertIfAbsent {α : Type} (getId : α → String) (rows : List α) (row : α) :
    List α :=
  if rows.any (fun x => getId x == getId row) then rows else rows ++ [row]

/-- Whether the target table already holds a row with the op's primary key. -/
def opPresent (db : LocalDB) : InsertOp → Bool
  | .roteiro r => db.roteiros.any (fun x => x.id == r.id)
  | .bairro b => db.bairros.any (fun x => x.id == b.id)
  | .rua r => db.ruas.any (fun x => x.id == r.id)
  | .residencia r => db.residencias.any (fun x => x.id == r.id)
  | .cliente c => db.clientes.any (fun x => x.id == c.id)

/-- Execute one `INSERT OR IGNORE` against the local database. -/
def applyOp (db : LocalDB) : InsertOp → LocalDB
  | .roteiro r => { db with roteiros := insertIfAbsent (fun x => x.id) db.roteiros r }
  | .bairro b => { db with bairros := insertIfAbsent (fun x => x.id) db.bairros b }
  | .rua r => { db with ruas := insertIfAbsent (fun x => x.id) db.ruas r }
  | .residencia r => { db with residencias := insertIfAbsent (fun x => x.id) db.residencias r }
  | .cliente c => { db with clientes := insertIfAbsent (fun x => x.id) db.clientes c }

/-! ### The remote route graph

Shape of one element of the `roteiros` select in `syncFromSupabase`
(lines 230-242): a roteiro with its joined rua, whose `bairro_id` is the
joined bairro object and whose `residencias` each optionally carry a
cliente. -/

/-- Remote cliente as selected inside a residencia. -/
structure RemoteCliente where
  id : String
  nome : String
  telefone : String
  email : String
  cpf : String
deriving DecidableEq

/-- Remote residencia with its optional cliente. -/
structure RemoteResidencia where
  id : String
  numero : Int
  clientes : Option RemoteCliente
deriving DecidableEq

/-- Remote bairro as selected via the `ruas:bairro_id` join. -/
structure RemoteBairro where
  id : String
  nome : String
  cidade : String
deriving DecidableEq

/-- Remote rua with its joined bairro object and residencias. -/
structure RemoteRua where
  id : String
  nome : String
  bairro_id : RemoteBairro
  residencias : List RemoteResidencia
deriving DecidableEq

/-- One remote roteiro row of the down-sync select. -/
structure RemoteRoteiro where
  id : String
  dia_semana : String
  ruas : RemoteRua
deriving DecidableEq

/-! ### Down-sync processing loop (syncFromSupabase, lines 341-464)

Within the loop every local write is an `exec` that may throw; a throw on a
roteiro/bairro/rua insert is caught by the per-route catch (lines 448-455)
and a throw on a residencia/cliente insert by the per-residence catch
(lines 432-438), each incrementing `errorCount`.  Which `exec` calls throw is
an input of the model.  The batch slicing (4 routes per batch, 10 residences
per sub-batch) only interposes pauses and logging between items and does not
change the order or the set of executed inserts, so it is not represented. -/

/-- Fault model: which `exec` inserts throw, per table and primary key. -/
structure ExecFaults where
  roteiroFails : String → Bool
  bairroFails : String → Bool
  ruaFails : String → Bool
  residenciaFails : String → Bool
  clienteFails : String → Bool

/-- The fault-free local store: no insert throws. -/
def noFaults : ExecFaults :=
  ⟨fun _ => false, fun _ => false, fun _ => false, fun _ => false, fun _ => false⟩

/-- Process one residencia of a route (lines 407-439): insert the residencia
row, then its cliente row when present; a throw is caught there and counted.
Returns the executed inserts in order and the error increment. -/
def processResidencia (ruaId : String) (f : ExecFaults) (res : RemoteResidencia) :
    List InsertOp × Nat :=
  if f.residenciaFails res.id then ([], 1)
  else
    let resOp := InsertOp.residencia ⟨res.id, ruaId, res.numero⟩
    match res.clientes with
    | none => ([resOp], 0)
    | some c =>
      if f.clienteFails c.id then ([resOp], 1)
      else ([resOp, InsertOp.cliente ⟨c.id, c.nome, c.telefone, c.email, c.cpf, res.id⟩], 0)

/-- Result of processing routes: executed inserts in order and the counters. -/
structure DownRunOut where
  inserts : List InsertOp
  syncedCount : Nat
  errorCount : Nat
deriving DecidableEq

/-- Process one route (lines 360-456): insert the roteiro row first, then the
bairro, then the rua; `syncedCount` is incremented at line 389, after those
three inserts and before any residencia is processed; then the residencias
are processed in order.  A throw on one of the first three inserts skips the
rest of the route and counts one error. -/
def processRoteiro (leituristaId : String) (f : ExecFaults) (r : RemoteRoteiro) :
    DownRunOut :=
  let rotOp := InsertOp.roteiro ⟨r.id, leituristaId, r.ruas.id, r.dia_semana⟩
  let baiOp := InsertOp.bairro ⟨r.ruas.bairro_id.id, r.ruas.bairro_id.nome, r.ruas.bairro_id.cidade⟩
  let ruaOp := InsertOp.rua ⟨r.ruas.id, r.ruas.nome, r.ruas.bairro_id.id⟩
  if f.roteiroFails r.id then ⟨[], 0, 1⟩
  else if f.bairroFails r.ruas.bairro_id.id then ⟨[rotOp], 0, 1⟩
  else if f.ruaFails r.ruas.id then ⟨[rotOp, baiOp], 0, 1⟩
  else
    let resOuts := r.ruas.residencias.map (processResidencia r.ruas.id f)
    ⟨[rotOp, baiOp, ruaOp] ++ (resOuts.map Prod.fst).flatten, 1,
      (resOuts.map Prod.snd).sum⟩

/-- Process all routes in order, concatenating executed inserts and summing
the counters. -/
def downRun (leituristaId : String) (f : ExecFaults) :
    List RemoteRoteiro → DownRunOut
  | [] => ⟨[], 0, 0⟩
  | r :: rest =>
    let out := processRoteiro leituristaId f r
    let acc := downRun leituristaId f rest
    ⟨out.inserts ++ acc.inserts, out.syncedCount + acc.syncedCount,
      out.errorCount + acc.errorCount⟩

/-! ### Session results and event traces -/

/-- The result record every session function returns. -/
structure SyncResult where
  success : Bool
  syncedCount : Int
  errorCount : Int
deriving DecidableEq

/-- Observable effects of a session: remote calls and local writes. -/
inductive SyncEvent where
  | remoteFetch (leituristaId : String)
  | remoteInsert (leituraId : String)
  | localMarkSynced (leituraId : String)
  | localInsert (op : InsertOp)
  | localUpdateStatus (readingId : String) (st : String)
  | localRemoveSynced
  | saveLastSyncTime
deriving DecidableEq

/-- Outcome of the one remote graph fetch of `syncFromSupabase`: either the
request resolved with an error (timeout, cancelled wrapper, retry-exhausted
failure, Supabase error, ...) or it delivered the roteiro rows. -/
inductive FetchOutcome where
  | fetchError
  | fetchData (roteiros : List RemoteRoteiro)

/-- How far a session body got.  `completes` is a run that reaches the end of
its batch loop; `abortSignal k` is an exception escaping the loop with the
abort signal fired (global 120 s deadline or cancellation) after `k` items
were fully processed; `exnNoAbort k` is any other exception escaping the loop
after `k` items. -/
inductive RunFate where
  | completes
  | abortSignal (k : Nat)
  | exnNoAbort (k : Nat)

/-- Embedding of `syncFromSupabase` (lines 168-549).  Offline check first
(lines 182-186); a fetch error returns `errorCount = 1` (lines 331-334); an
empty graph returns success with zero counts (lines 336-339); otherwise the
routes are processed in order.  The outer catch (lines 496-505) returns the
`-2` sentinel when the signal had fired and `errorCount = 1` otherwise.  On
normal completion the last-sync timestamp is written and
`success = (errorCount == 0)` (lines 466-477). -/
def syncFromSupabase (leituristaId : String) (isOnline : Bool)
    (fetch : FetchOutcome) (fate : RunFate) (f : ExecFaults) (db : LocalDB) :
    SyncResult × LocalDB × List SyncEvent :=
  if !isOnline then (⟨false, 0, 0⟩, db, [])
  else
    match fetch with
    | .fetchError => (⟨false, 0, 1⟩, db, [SyncEvent.remoteFetch leituristaId])
    | .fetchData roteiros =>
      if roteiros.isEmpty then
        (⟨true, 0, 0⟩, db, [SyncEvent.remoteFetch leituristaId])
      else
        let processed :=
          match fate with
          | .completes => roteiros
          | .abortSignal k => roteiros.take k
          | .exnNoAbort k => roteiros.take k
        let out := downRun leituristaId f processed
        let db1 := out.inserts.foldl applyOp db
        let trace := SyncEvent.remoteFetch leituristaId ::
          out.inserts.map SyncEvent.localInsert
        match fate with
        | .completes =>
          (⟨out.errorCount == 0, (out.syncedCount : Int), (out.errorCount : Int)⟩,
            db1, trace ++ [SyncEvent.saveLastSyncTime])
        | .abortSignal _ => (⟨false, 0, -2⟩, db1, trace)
        | .exnNoAbort _ => (⟨false, 0, 1⟩, db1, trace)

/-! ### Up-sync (`syncToSupabase`, lines 552-895) -/

/-- The pending query `SELECT * FROM leituras WHERE sincronizado = 0`
(line 592). -/
def pendingLeituras (db : LocalDB) : List Leitura :=
  db.leituras.filter (fun l => l.sincronizado == 0)

/-- Effect on one row of `UPDATE leituras SET sincronizado = 1 WHERE id = ?`
(lines 779-781). -/
def markSyncedRow (l : Leitura) : Leitura := { l with sincronizado := 1 }

/-- The `UPDATE ... WHERE id = ?` statement over the whole table. -/
def updateSetSincronizado (rows : List Leitura) (i : String) : List Leitura :=
  rows.map (fun l => if l.id == i then markSyncedRow l else l)

/-- Accumulated state of the up-sync batch loop. -/
structure UpState where
  leituras : List Leitura
  syncedCount : Nat
  errorCount : Nat
  trace : List SyncEvent

/-- Process one pending reading (lines 623-811): issue the remote insert
(whose outcome `remoteOk` gives per reading id); on success run the local
`UPDATE` marking it synced and increment `syncedCount`; on any failure the
local row is not touched and `errorCount` is incremented (both the
error-result branch at lines 784-803 and the per-reading catch at
lines 804-811). -/
def processLeitura (remoteOk : String → Bool) (st : UpState) (l : Leitura) :
    UpState :=
  if remoteOk l.id then
    { leituras := updateSetSincronizado st.leituras l.id,
      syncedCount := st.syncedCount + 1,
      errorCount := st.errorCount,
      trace := st.trace ++ [SyncEvent.remoteInsert l.id, SyncEvent.localMarkSynced l.id] }
  else
    { st with errorCount := st.errorCount + 1,
              trace := st.trace ++ [SyncEvent.remoteInsert l.id] }

/-- Embedding of `syncToSupabase` (lines 552-895).  Offline check first
(lines 564-569); an empty pending list returns success with zero counts
immediately (lines 596-599) without reaching the `saveLastSyncTime` call at
line 824; otherwise pending readings are processed in order; the outer catch
(lines 852-861) returns the `-2` sentinel when the signal had fired and
`errorCount = 1` otherwise; on normal completion the timestamp is written and
`success = (errorCount == 0)` (lines 822-833). -/
def syncToSupabase (isOnline : Bool) (fate : RunFate) (remoteOk : String → Bool)
    (db : LocalDB) : SyncResult × LocalDB × List SyncEvent :=
  if !isOnline then (⟨false, 0, 0⟩, db, [])
  else
    let pending := pendingLeituras db
    if pending.isEmpty then (⟨true, 0, 0⟩, db, [])
    else
      let processed :=
        match fate with
        | .completes => pending
        | .abortSignal k => pending.take k
        | .exnNoAbort k => pending.take k
      let st := processed.foldl (processLeitura remoteOk) ⟨db.leituras, 0, 0, []⟩
      let db1 := { db with leituras := st.leituras }
      match fate with
      | .completes =>
        (⟨st.errorCount == 0, (st.syncedCount : Int), (st.errorCount : Int)⟩,
          db1, st.trace ++ [SyncEvent.saveLastSyncTime])
      | .abortSignal _ => (⟨false, 0, -2⟩, db1, st.trace)
      | .exnNoAbort _ => (⟨false, 0, 1⟩, db1, st.trace)

/-! ### Legacy `syncPendingReadings` (lines 898-1027) -/

/-- Row of the legacy `meter_readings` table (storage.ts `MeterReading`). -/
structure MeterReading where
  id : String
  meterId : String
  addressId : String
  routeId : String
  value : String
  timestamp : String
  imageUri : Option String
  syncStatus : String
deriving DecidableEq

/-- Embedding of `syncPendingReadings` (lines 898-1027).  It iterates over
all readings returned by `getPendingReadings`, skipping those whose
`syncStatus` is not `"pending"`; the simulated per-reading success is the
input `rand`.  When there is nothing pending it writes the timestamp and
returns success with zero counts (lines 920-929).  Its outer catch returns
`-2` when the signal had fired and `-1` otherwise (lines 1010-1016).  On a
fully successful completion the synced readings are removed
(lines 996-1003). -/
def syncPendingReadings (isOnline : Bool) (fate : RunFate)
    (rand : String → Bool) (readings : List MeterReading) :
    SyncResult × List SyncEvent :=
  if !isOnline then (⟨false, 0, 0⟩, [])
  else
    let pendingCount := (readings.filter (fun r => r.syncStatus == "pending")).length
    if pendingCount == 0 then (⟨true, 0, 0⟩, [SyncEvent.saveLastSyncTime])
    else
      let processed :=
        match fate with
        | .completes => readings
        | .abortSignal k => readings.take k
        | .exnNoAbort k => readings.take k
      let st := processed.foldl
        (fun (st : List SyncEvent × Nat × Nat) r =>
          if r.syncStatus == "pending" then
            if rand r.id then
              (st.1 ++ [SyncEvent.localUpdateStatus r.id "synced"], st.2.1 + 1, st.2.2)
            else
              (st.1 ++ [SyncEvent.localUpdateStatus r.id "error"], st.2.1, st.2.2 + 1)
          else st)
        ([], 0, 0)
      match fate with
      | .completes =>
        let base := (st.1 ++ [SyncEvent.saveLastSyncTime], st.2.1, st.2.2)
        let trace :=
          if st.2.2 == 0 && st.2.1 != 0 then base.1 ++ [SyncEvent.localRemoveSynced]
          else base.1
        (⟨st.2.2 == 0, (st.2.1 : Int), (st.2.2 : Int)⟩, trace)
      | .abortSignal _ => (⟨false, 0, -2⟩, st.1)
      | .exnNoAbort _ => (⟨false, 0, -1⟩, st.1)

/-! ### Generic facts about `INSERT OR IGNORE` -/

/-- Total number of route-graph rows in the local database. -/
def entityCount (db : LocalDB) : Nat :=
  db.roteiros.length + db.bairros.length + db.ruas.length +
    db.residencias.length + db.clientes.length

theorem opPresent_applyOp_self (db : LocalDB) (op : InsertOp) :
    opPresent (applyOp db op) op = true := by
  cases op <;>
    simp only [opPresent, applyOp, insertIfAbsent] <;>
    split <;>
    simp_all [List.any_append]

theorem applyOp_of_present (db : LocalDB) (op : InsertOp)
    (h : opPresent db op = true) : applyOp db op = db := by
  cases op <;> simp_all [opPresent, applyOp, insertIfAbsent]

theorem opPresent_applyOp_mono (db : LocalDB) (op op' : InsertOp)
    (h : opPresent db op = true) : opPresent (applyOp db op') op = true := by
  cases op <;> cases op' <;>
    simp_all [opPresent, applyOp, insertIfAbsent] <;>
    split <;>
    simp_all [List.any_append] <;>
    (obtain ⟨x, hx, he⟩ := h; exact ⟨x, Or.inl hx, he⟩)

theorem foldl_applyOp_present (ops : List InsertOp) (db : LocalDB) (op : InsertOp)
    (h : opPresent db op = true) : opPresent (ops.foldl applyOp db) op = true := by
  induction ops generalizing db with
  | nil => simpa using h
  | cons o rest ih => exact ih _ (opPresent_applyOp_mono _ _ _ h)

theorem foldl_applyOp_all_present (ops : List InsertOp) (db : LocalDB) :
    ∀ op ∈ ops, opPresent (ops.foldl applyOp db) op = true := by
  induction ops generalizing db with
  | nil => intro op h; cases h
  | cons o rest ih =>
    intro op hmem
    rcases List.mem_cons.mp hmem with h | h
    · subst h
      simpa using foldl_applyOp_present rest (applyOp db op) op
        (opPresent_applyOp_self db op)
    · simpa using ih (applyOp db o) op h

theorem foldl_applyOp_of_all_present (ops : List InsertOp) (db : LocalDB)
    (h : ∀ op ∈ ops, opPresent db op = true) : ops.foldl applyOp db = db := by
  induction ops with
  | nil => rfl
  | cons o rest ih =>
    have h0 : applyOp db o = db := applyOp_of_present db o (h o (List.mem_cons_self o rest))
    rw [List.foldl_cons, h0]
    exact ih fun op hm => h op (List.mem_cons_of_mem _ hm)

theorem foldl_applyOp_idem (ops : List InsertOp) (db : LocalDB) :
    ops.foldl applyOp (ops.foldl applyOp db) = ops.foldl applyOp db :=
  foldl_applyOp_of_all_present ops _ (foldl_applyOp_all_present ops db)

/-- Componentwise containment of local databases: every row of `a` is still a
row of `b`. -/
def dbLe (a b : LocalDB) : Prop :=
  a.roteiros ⊆ b.roteiros ∧ a.bairros ⊆ b.bairros ∧ a.ruas ⊆ b.ruas ∧
    a.residencias ⊆ b.residencias ∧ a.clientes ⊆ b.clientes ∧
    a.leituras ⊆ b.leituras

theorem dbLe_refl (a : LocalDB) : dbLe a a := by
  refine ⟨?_, ?_, ?_, ?_, ?_, ?_⟩ <;> exact fun _ h => h

theorem subset_insertIfAbsent {α : Type} (getId : α → String) (rows : List α)
    (row : α) : rows ⊆ insertIfAbsent getId rows row := by
  unfold insertIfAbsent
  split
  · exact fun _ h => h
  · exact fun x h => List.mem_append_left _ h

theorem dbLe_applyOp (db : LocalDB) (op : InsertOp) : dbLe db (applyOp db op) := by
  cases op <;>
    exact ⟨by simp [applyOp, subset_insertIfAbsent], by simp [applyOp, subset_insertIfAbsent],
      by simp [applyOp, subset_insertIfAbsent], by simp [applyOp, subset_insertIfAbsent],
      by simp [applyOp, subset_insertIfAbsent], by simp [applyOp, subset_insertIfAbsent]⟩

theorem dbLe_trans {a b c : LocalDB} (h1 : dbLe a b) (h2 : dbLe b c) : dbLe a c := by
  obtain ⟨r1, b1, u1, s1, c1, l1⟩ := h1
  obtain ⟨r2, b2, u2, s2, c2, l2⟩ := h2
  exact ⟨r1.trans r2, b1.trans b2, u1.trans u2, s1.trans s2, c1.trans c2, l1.trans l2⟩

theorem dbLe_foldl_applyOp (ops : List InsertOp) (db : LocalDB) :
    dbLe db (ops.foldl applyOp db) := by
  induction ops generalizing db with
  | nil => exact dbLe_refl db
  | cons o rest ih =>
    rw [List.foldl_cons]
    exact dbLe_trans (dbLe_applyOp db o) (ih (applyOp db o))

/-- C2: down-sync is idempotent.  Running `syncFromSupabase` a second time
against the same remote graph leaves the local database exactly as after the
first run (and hence with the same entity count); and the first run never
drops or overwrites an existing local row. -/
theorem syncFromSupabase_idempotent (lid : String) (rs : List RemoteRoteiro)
    (f : ExecFaults) (db : LocalDB) :
    (syncFromSupabase lid true (.fetchData rs) .completes f
        (syncFromSupabase lid true (.fetchData rs) .completes f db).2.1).2.1 =
      (syncFromSupabase lid true (.fetchData rs) .completes f db).2.1 ∧
    entityCount
        (syncFromSupabase lid true (.fetchData rs) .completes f
          (syncFromSupabase lid true (.fetchData rs) .completes f db).2.1).2.1 =
      entityCount (syncFromSupabase lid true (.fetchData rs) .completes f db).2.1 ∧
    dbLe db (syncFromSupabase lid true (.fetchData rs) .completes f db).2.1 := by
  cases hrs : rs.isEmpty
  · have h1 : (syncFromSupabase lid true (.fetchData rs) .completes f db).2.1 =
        (downRun lid f rs).inserts.foldl applyOp db := by
      simp [syncFromSupabase, hrs]
    have h2 : ∀ d : LocalDB,
        (syncFromSupabase lid true (.fetchData rs) .completes f d).2.1 =
          (downRun lid f rs).inserts.foldl applyOp d := by
      intro d; simp [syncFromSupabase, hrs]
    rw [h1, h2]
    refine ⟨foldl_applyOp_idem _ _, ?_, dbLe_foldl_applyOp _ _⟩
    rw [foldl_applyOp_idem]
  · have h1 : (syncFromSupabase lid true (.fetchData rs) .completes f db).2.1 = db := by
      simp [syncFromSupabase, hrs]
    have h2 : ∀ d : LocalDB,
        (syncFromSupabase lid true (.fetchData rs) .completes f d).2.1 = d := by
      intro d; simp [syncFromSupabase, hrs]
    exact ⟨h2 _, by rw [h2], by rw [h1]; exact dbLe_refl db⟩

/-- C3: when the connectivity check reports offline, both sync entry points
return `success = false` with both counts zero, leave the local database
untouched, and issue no remote call and no local write (empty event trace). -/
theorem offline_sync_silent (lid : String) (fetch : FetchOutcome)
    (fateD fateU : RunFate) (f : ExecFaults) (ok : String → Bool) (db : LocalDB) :
    syncFromSupabase lid false fetch fateD f db = (⟨false, 0, 0⟩, db, []) ∧
    syncToSupabase false fateU ok db = (⟨false, 0, 0⟩, db, []) :=
  ⟨rfl, rfl⟩

/-! ### Facts about the up-sync loop -/

/-- Lookup of a leitura row by primary key (first match). -/
def findLeitura (rows : List Leitura) (i : String) : Option Leitura :=
  rows.find? (fun l => l.id == i)

/-- Primary keys of a leituras table. -/
def leituraIds (rows : List Leitura) : List String := rows.map (fun l => l.id)

/-- Effect of processing one reading on the leituras table alone. -/
def upStepRows (ok : String → Bool) (rows : List Leitura) (l : Leitura) :
    List Leitura :=
  if ok l.id then updateSetSincronizado rows l.id else rows

/-- Effect of the whole up-sync loop on the leituras table alone. -/
def upSyncRows (ok : String → Bool) (ls rows : List Leitura) : List Leitura :=
  ls.foldl (upStepRows ok) rows

theorem processLeitura_leituras (ok : String → Bool) (st : UpState) (l : Leitura) :
    (processLeitura ok st l).leituras = upStepRows ok st.leituras l := by
  unfold processLeitura upStepRows
  split <;> rfl

theorem foldl_processLeitura_leituras (ok : String → Bool) (ls : List Leitura)
    (st : UpState) :
    (ls.foldl (processLeitura ok) st).leituras = upSyncRows ok ls st.leituras := by
  induction ls generalizing st with
  | nil => rfl
  | cons l rest ih =>
    rw [List.foldl_cons, ih]
    simp [upSyncRows, List.foldl_cons, processLeitura_leituras]

theorem foldl_processLeitura_counts (ok : String → Bool) (ls : List Leitura)
    (st : UpState) :
    (ls.foldl (processLeitura ok) st).syncedCount +
      (ls.foldl (processLeitura ok) st).errorCount =
      st.syncedCount + st.errorCount + ls.length := by
  induction ls generalizing st with
  | nil => simp
  | cons l rest ih =>
    rw [List.foldl_cons, ih]
    unfold processLeitura
    split <;> simp <;> omega

theorem markSyncedRow_id (l : Leitura) : (markSyncedRow l).id = l.id := rfl

theorem findLeitura_updateSet (rows : List Leitura) (i j : String) :
    findLeitura (updateSetSincronizado rows j) i =
      Option.map (fun l => if l.id == j then markSyncedRow l else l)
        (findLeitura rows i) := by
  unfold findLeitura updateSetSincronizado
  rw [List.find?_map]
  have hp : ∀ l : Leitura,
      ((if l.id == j then markSyncedRow l else l).id == i) = (l.id == i) := by
    intro l
    by_cases h : l.id = j <;> simp [h, markSyncedRow]
  simp only [Function.comp_def, hp]

theorem findLeitura_updateSet_ne (rows : List Leitura) (i j : String)
    (h : ¬ i = j) :
    findLeitura (updateSetSincronizado rows j) i = findLeitura rows i := by
  rw [findLeitura_updateSet]
  cases hf : findLeitura rows i with
  | none => rfl
  | some x =>
    have hf' : List.find? (fun l : Leitura => l.id == i) rows = some x := hf
    have hx : (x.id == i) = true := by simpa using List.find?_some hf'
    have hxi : x.id = i := by simpa using hx
    have hxj : (x.id == j) = false := by
      rw [beq_eq_false_iff_ne, hxi]
      exact h
    simp only [Option.map_some']
    rw [if_neg]
    simp [hxj]

theorem findLeitura_updateSet_self (rows : List Leitura) (i : String) :
    findLeitura (updateSetSincronizado rows i) i =
      Option.map markSyncedRow (findLeitura rows i) := by
  rw [findLeitura_updateSet]
  cases hf : findLeitura rows i with
  | none => rfl
  | some x =>
    have hf' : List.find? (fun l : Leitura => l.id == i) rows = some x := hf
    have hx : (x.id == i) = true := by simpa using List.find?_some hf'
    simp only [Option.map_some']
    rw [if_pos hx]

theorem upSyncRows_find_of_ne (ok : String → Bool) (ls rows : List Leitura)
    (i : String) (h : ∀ l ∈ ls, l.id ≠ i) :
    findLeitura (upSyncRows ok ls rows) i = findLeitura rows i := by
  induction ls generalizing rows with
  | nil => rfl
  | cons l rest ih =>
    have hstep : findLeitura (upStepRows ok rows l) i = findLeitura rows i := by
      unfold upStepRows
      split
      · exact findLeitura_updateSet_ne rows i l.id
          (fun e => h l (List.mem_cons_self l rest) e.symm)
      · rfl
    calc findLeitura (upSyncRows ok (l :: rest) rows) i
        = findLeitura (upSyncRows ok rest (upStepRows ok rows l)) i := rfl
      _ = findLeitura (upStepRows ok rows l) i :=
          ih _ fun x hx => h x (List.mem_cons_of_mem _ hx)
      _ = findLeitura rows i := hstep

theorem findLeitura_of_mem_nodup (rows : List Leitura) (l : Leitura)
    (hn : (leituraIds rows).Nodup) (hm : l ∈ rows) :
    findLeitura rows l.id = some l := by
  induction rows with
  | nil => cases hm
  | cons x rest ih =>
    have hn' : x.id ∉ leituraIds rest ∧ (leituraIds rest).Nodup := by
      simpa [leituraIds, List.nodup_cons] using hn
    rcases List.mem_cons.mp hm with rfl | hm'
    · unfold findLeitura
      exact List.find?_cons_of_pos _ (by simp)
    · have hx : ¬ (x.id == l.id) = true := by
        simp only [beq_iff_eq]
        intro e
        exact hn'.1 (e ▸ List.mem_map_of_mem (fun l => l.id) hm')
      unfold findLeitura
      rw [@List.find?_cons_of_neg _ (fun y : Leitura => y.id == l.id) x rest hx]
      exact ih hn'.2 hm'

theorem syncToSupabase_completes_leituras (ok : String → Bool) (db : LocalDB)
    (h : pendingLeituras db ≠ []) :
    (syncToSupabase true .completes ok db).2.1.leituras =
      upSyncRows ok (pendingLeituras db) db.leituras := by
  have hne : (pendingLeituras db).isEmpty = false := List.isEmpty_eq_false.mpr h
  simp [syncToSupabase, hne, foldl_processLeitura_leituras]

/-- C1: no data loss in up-sync.  For every pending record, a failed remote
insert leaves the record's local row byte-for-byte unchanged (in particular
`sincronizado` stays `0`), and only a successful remote insert produces the
row with `sincronizado = 1` and all payload fields intact. -/
theorem syncToSupabase_no_data_loss (ok : String → Bool) (db : LocalDB)
    (l : Leitura) (hn : (leituraIds db.leituras).Nodup)
    (hm : l ∈ pendingLeituras db) :
    (ok l.id = false →
      findLeitura (syncToSupabase true .completes ok db).2.1.leituras l.id =
        some l ∧ l.sincronizado = 0) ∧
    (ok l.id = true →
      findLeitura (syncToSupabase true .completes ok db).2.1.leituras l.id =
        some (markSyncedRow l)) := by
  have hpen : pendingLeituras db ≠ [] := List.ne_nil_of_mem hm
  have hmem : l ∈ db.leituras := (List.mem_filter.mp hm).1
  have hsin : l.sincronizado = 0 := by
    have := (List.mem_filter.mp hm).2
    simpa using this
  rw [syncToSupabase_completes_leituras ok db hpen]
  obtain ⟨a, b, hab⟩ := List.append_of_mem hm
  have hsubl : (List.map (fun l : Leitura => l.id) (pendingLeituras db)).Sublist
      (List.map (fun l : Leitura => l.id) db.leituras) :=
    (List.filter_sublist db.leituras).map _
  have hsub : (List.map (fun l : Leitura => l.id) (pendingLeituras db)).Nodup :=
    hsubl.nodup hn
  rw [hab] at hsub
  have hsub' : (List.map (fun l : Leitura => l.id) a ++
      l.id :: List.map (fun l : Leitura => l.id) b).Nodup := by
    simpa using hsub
  have h2 : l.id ∉ List.map (fun l : Leitura => l.id) b :=
    (List.nodup_cons.mp (List.Nodup.of_append_right hsub')).1
  have h1 : l.id ∉ List.map (fun l : Leitura => l.id) a := fun hmem' =>
    (List.disjoint_of_nodup_append hsub') hmem' (List.mem_cons_self _ _)
  have ha : ∀ x ∈ a, x.id ≠ l.id := fun x hx e =>
    h1 (e ▸ List.mem_map_of_mem (fun l => l.id) hx)
  have hb : ∀ x ∈ b, x.id ≠ l.id := fun x hx e =>
    h2 (e ▸ List.mem_map_of_mem (fun l => l.id) hx)
  have hfind0 : findLeitura db.leituras l.id = some l :=
    findLeitura_of_mem_nodup db.leituras l hn hmem
  rw [hab]
  have hsplit : upSyncRows ok (a ++ l :: b) db.leituras =
      upSyncRows ok b (upStepRows ok (upSyncRows ok a db.leituras) l) := by
    simp [upSyncRows, List.foldl_append]
  rw [hsplit]
  have hfa : findLeitura (upSyncRows ok a db.leituras) l.id = some l := by
    rw [upSyncRows_find_of_ne ok a db.leituras l.id ha]
    exact hfind0
  constructor
  · intro hok
    refine ⟨?_, hsin⟩
    rw [upSyncRows_find_of_ne ok b _ l.id hb]
    unfold upStepRows
    simp only [hok, Bool.false_eq_true, if_false]
    exact hfa
  · intro hok
    rw [upSyncRows_find_of_ne ok b _ l.id hb]
    unfold upStepRows
    simp only [hok, if_true]
    rw [findLeitura_updateSet_self, hfa]
    rfl

/-- C10: accounting invariant of a completed, non-aborted up-sync run with a
non-empty pending list: every pending record contributes to exactly one of
the two counters, so `syncedCount + errorCount` equals the number of pending
records, and `success` holds exactly when `errorCount = 0`. -/
theorem syncToSupabase_accounting (ok : String → Bool) (db : LocalDB)
    (h : pendingLeituras db ≠ []) :
    (syncToSupabase true .completes ok db).1.syncedCount +
        (syncToSupabase true .completes ok db).1.errorCount =
      ((pendingLeituras db).length : Int) ∧
    ((syncToSupabase true .completes ok db).1.success = true ↔
      (syncToSupabase true .completes ok db).1.errorCount = 0) := by
  have hne : (pendingLeituras db).isEmpty = false := List.isEmpty_eq_false.mpr h
  have hc := foldl_processLeitura_counts ok (pendingLeituras db)
    ⟨db.leituras, 0, 0, []⟩
  have hres : (syncToSupabase true .completes ok db).1 =
      ⟨((pendingLeituras db).foldl (processLeitura ok)
          ⟨db.leituras, 0, 0, []⟩).errorCount == 0,
        (((pendingLeituras db).foldl (processLeitura ok)
          ⟨db.leituras, 0, 0, []⟩).syncedCount : Int),
        (((pendingLeituras db).foldl (processLeitura ok)
          ⟨db.leituras, 0, 0, []⟩).errorCount : Int)⟩ := by
    simp [syncToSupabase, hne]
  rw [hres]
  constructor
  · have hc' : ((pendingLeituras db).foldl (processLeitura ok)
        ⟨db.leituras, 0, 0, []⟩).syncedCount +
        ((pendingLeituras db).foldl (processLeitura ok)
          ⟨db.leituras, 0, 0, []⟩).errorCount = (pendingLeituras db).length := by
      simp only [UpState.syncedCount, UpState.errorCount] at hc
      omega
    show (((pendingLeituras db).foldl (processLeitura ok)
        ⟨db.leituras, 0, 0, []⟩).syncedCount : Int) +
        (((pendingLeituras db).foldl (processLeitura ok)
          ⟨db.leituras, 0, 0, []⟩).errorCount : Int) =
      ((pendingLeituras db).length : Int)
    exact_mod_cast hc'
  · show (((pendingLeituras db).foldl (processLeitura ok)
        ⟨db.leituras, 0, 0, []⟩).errorCount == 0) = true ↔
      ((((pendingLeituras db).foldl (processLeitura ok)
        ⟨db.leituras, 0, 0, []⟩).errorCount : Nat) : Int) = 0
    simp

/-! ### Concrete sample data used by counterexamples and witnesses -/

/-- A pending reading row. -/
def sampleLeitura : Leitura :=
  ⟨"L1", "R1", "C1", "LT1", "123", "foto.jpg", "pendente",
    "2025-01-01", "08:00:00", 0⟩

/-- A local database holding exactly one pending reading. -/
def dbOnePending : LocalDB := { emptyLocalDB with leituras := [sampleLeitura] }

/-- A legacy meter reading with `syncStatus = "pending"`. -/
def sampleReading : MeterReading :=
  ⟨"MR1", "M1", "A1", "RT1", "42", "2025-01-01T00:00:00Z", none, "pending"⟩

/-- Remote route 1: one rua, one bairro, one residencia with a cliente. -/
def rotA : RemoteRoteiro :=
  ⟨"ROT1", "Segunda-feira",
    ⟨"RUA1", "Rua Um", ⟨"BAI1", "Bairro Um", "Cidade"⟩,
      [⟨"RES1", 1, some ⟨"CLI1", "N1", "T1", "E1", "C1"⟩⟩]⟩⟩

/-- Remote route 2, whose residencia `RES2` will be made to fail. -/
def rotB : RemoteRoteiro :=
  ⟨"ROT2", "Segunda-feira",
    ⟨"RUA2", "Rua Dois", ⟨"BAI2", "Bairro Dois", "Cidade"⟩,
      [⟨"RES2", 2, some ⟨"CLI2", "N2", "T2", "E2", "C2"⟩⟩]⟩⟩

/-- Remote route 3. -/
def rotC : RemoteRoteiro :=
  ⟨"ROT3", "Segunda-feira",
    ⟨"RUA3", "Rua Tres", ⟨"BAI3", "Bairro Tres", "Cidade"⟩,
      [⟨"RES3", 3, some ⟨"CLI3", "N3", "T3", "E3", "C3"⟩⟩]⟩⟩

/-- Fault model where exactly the residencia insert for `RES2` throws. -/
def faultRes2 : ExecFaults := { noFaults with residenciaFails := fun i => i == "RES2" }

/-- The "down-sync with one bad unit" scenario: three remote routes, the
residencia insert of route 2 throws, device online, run completes. -/
def badUnitRun : SyncResult × LocalDB × List SyncEvent :=
  syncFromSupabase "LT1" true (.fetchData [rotA, rotB, rotC]) .completes
    faultRes2 emptyLocalDB

/-- The retry options used at the repository's call sites
(`maxRetries: 3, initialDelay: 2000`, default `maxDelay`). -/
def repoRetryOptions : RetryOptions := ⟨3, 2000, 15000⟩

/-- A wrapped operation that always fails with a premature-close error,
taking no time. -/
def alwaysPrematureFail : Nat → AttemptResult × Nat :=
  fun _ => (.fail "premature close", 0)

/-! ### C4: errorCount sentinels -/

/-- C4 counterexample: with the device online, one pending reading, and an
unexpected exception escaping the loop with the abort signal not fired,
`syncToSupabase` returns `errorCount = 1`, not the `-1` sentinel the claim
reserves for unexpected session-level failures. -/
theorem errorCount_sentinel_counterexample :
    (syncToSupabase true (.exnNoAbort 0) (fun _ => true) dbOnePending).1.errorCount
        = 1 ∧
    ¬ (syncToSupabase true (.exnNoAbort 0) (fun _ => true) dbOnePending).1.errorCount
        = -1 := by
  decide

/-- C4 amended: all three session functions return the `-2` sentinel on an
abort-signal exit; on an unexpected non-abort exception only the legacy
`syncPendingReadings` returns `-1`, while `syncToSupabase` and
`syncFromSupabase` return `errorCount = 1`, indistinguishable from a single
per-record failure; a completed up-sync run always reports a nonnegative
`errorCount`. -/
theorem sync_errorCount_sentinels (lid : String) (ok rand : String → Bool)
    (f : ExecFaults) (db : LocalDB) (rs : List RemoteRoteiro)
    (readings : List MeterReading) (k k' k'' : Nat)
    (hpend : pendingLeituras db ≠ []) (hrs : rs ≠ [])
    (hread : (readings.filter (fun r => r.syncStatus == "pending")).length ≠ 0) :
    (syncToSupabase true (.abortSignal k) ok db).1 = ⟨false, 0, -2⟩ ∧
    (syncToSupabase true (.exnNoAbort k) ok db).1 = ⟨false, 0, 1⟩ ∧
    (syncFromSupabase lid true (.fetchData rs) (.abortSignal k') f db).1 =
      ⟨false, 0, -2⟩ ∧
    (syncFromSupabase lid true (.fetchData rs) (.exnNoAbort k') f db).1 =
      ⟨false, 0, 1⟩ ∧
    (syncPendingReadings true (.abortSignal k'') rand readings).1 =
      ⟨false, 0, -2⟩ ∧
    (syncPendingReadings true (.exnNoAbort k'') rand readings).1 =
      ⟨false, 0, -1⟩ ∧
    0 ≤ (syncToSupabase true .completes ok db).1.errorCount := by
  have hne : (pendingLeituras db).isEmpty = false := List.isEmpty_eq_false.mpr hpend
  have hrs' : rs.isEmpty = false := List.isEmpty_eq_false.mpr hrs
  have hread' : ((readings.filter (fun r => r.syncStatus == "pending")).length
      == 0) = false := by
    simpa using hread
  refine ⟨?_, ?_, ?_, ?_, ?_, ?_, ?_⟩ <;>
    simp [syncToSupabase, syncFromSupabase, syncPendingReadings, hne, hrs', hread']

/-- C4 witness. -/
theorem sync_errorCount_sentinels_witness :
    (syncToSupabase true (.abortSignal 0) (fun _ => true) dbOnePending).1 =
      ⟨false, 0, -2⟩ ∧
    (syncToSupabase true (.exnNoAbort 0) (fun _ => true) dbOnePending).1 =
      ⟨false, 0, 1⟩ ∧
    (syncFromSupabase "LT1" true (.fetchData [rotA]) (.abortSignal 0)
        noFaults dbOnePending).1 = ⟨false, 0, -2⟩ ∧
    (syncFromSupabase "LT1" true (.fetchData [rotA]) (.exnNoAbort 0)
        noFaults dbOnePending).1 = ⟨false, 0, 1⟩ ∧
    (syncPendingReadings true (.abortSignal 0) (fun _ => true)
        [sampleReading]).1 = ⟨false, 0, -2⟩ ∧
    (syncPendingReadings true (.exnNoAbort 0) (fun _ => true)
        [sampleReading]).1 = ⟨false, 0, -1⟩ ∧
    0 ≤ (syncToSupabase true .completes (fun _ => true) dbOnePending).1.errorCount :=
  sync_errorCount_sentinels "LT1" (fun _ => true) (fun _ => true) noFaults
    dbOnePending [rotA] [sampleReading] 0 0 0 (by decide) (by decide) (by decide)

/-! ### C7: down-sync with one bad unit -/

/-- C7 counterexample: in the 3-route scenario with route 2's residencia
insert throwing, the run reports 3 synced routes (the per-route counter is
incremented before the residencias are processed), not the 2 the claim
states. -/
theorem badUnit_counts_counterexample :
    badUnitRun.1.syncedCount = 3 ∧ badUnitRun.1.errorCount = 1 ∧
    ¬ badUnitRun.1.syncedCount = 2 := by
  decide

/-- C7 amended: in the 3-route scenario with route 2's residencia insert
throwing, the run does not abort and returns `success = false` with 3 synced
routes and 1 error (`syncedCount` counts a route once its roteiro, bairro and
rua inserts succeeded, before its residencias are processed); the local store
holds all three routes' roteiro, bairro and rua rows and is missing exactly
the failed residencia subtree (residencia `RES2` and its cliente `CLI2`). -/
theorem badUnit_partial_failure :
    badUnitRun.1 = ⟨false, 3, 1⟩ ∧
    badUnitRun.2.1.roteiros = [⟨"ROT1", "LT1", "RUA1", "Segunda-feira"⟩,
      ⟨"ROT2", "LT1", "RUA2", "Segunda-feira"⟩,
      ⟨"ROT3", "LT1", "RUA3", "Segunda-feira"⟩] ∧
    badUnitRun.2.1.bairros = [⟨"BAI1", "Bairro Um", "Cidade"⟩,
      ⟨"BAI2", "Bairro Dois", "Cidade"⟩, ⟨"BAI3", "Bairro Tres", "Cidade"⟩] ∧
    badUnitRun.2.1.ruas = [⟨"RUA1", "Rua Um", "BAI1"⟩,
      ⟨"RUA2", "Rua Dois", "BAI2"⟩, ⟨"RUA3", "Rua Tres", "BAI3"⟩] ∧
    badUnitRun.2.1.residencias = [⟨"RES1", "RUA1", 1⟩, ⟨"RES3", "RUA3", 3⟩] ∧
    badUnitRun.2.1.clientes = [⟨"CLI1", "N1", "T1", "E1", "C1", "RES1"⟩,
      ⟨"CLI3", "N3", "T3", "E3", "C3", "RES3"⟩] := by
  decide

/-! ### C8: up-sync with an empty pending list -/

/-- C8 counterexample: with the device online and no pending readings,
`syncToSupabase` returns success with zero counts but does *not* write the
last-sync timestamp (its event trace is empty), contradicting the claim that
the timestamp is still updated. -/
theorem emptyPending_no_timestamp_counterexample :
    syncToSupabase true .completes (fun _ => true) emptyLocalDB =
      (⟨true, 0, 0⟩, emptyLocalDB, []) ∧
    ¬ SyncEvent.saveLastSyncTime ∈
      (syncToSupabase true .completes (fun _ => true) emptyLocalDB).2.2 := by
  decide

/-- C8 amended: an online `syncToSupabase` run with an empty pending list
returns success with zero counts immediately and performs no write at all —
in particular it does not update the last-sync timestamp; the legacy
`syncPendingReadings`, by contrast, does write the timestamp on its
empty-pending path. -/
theorem syncToSupabase_emptyPending (ok rand : String → Bool) (fate : RunFate)
    (db : LocalDB) (readings : List MeterReading)
    (h : pendingLeituras db = [])
    (h2 : (readings.filter (fun r => r.syncStatus == "pending")).length = 0) :
    syncToSupabase true fate ok db = (⟨true, 0, 0⟩, db, []) ∧
    syncPendingReadings true fate rand readings =
      (⟨true, 0, 0⟩, [SyncEvent.saveLastSyncTime]) := by
  have hne : (pendingLeituras db).isEmpty = true := List.isEmpty_iff.mpr h
  have h2' : ((readings.filter (fun r => r.syncStatus == "pending")).length
      == 0) = true := by simpa using h2
  constructor
  · simp [syncToSupabase, hne]
  · simp [syncPendingReadings, h2']

/-- C8 witness. -/
theorem syncToSupabase_emptyPending_witness :
    syncToSupabase true .completes (fun _ => false) emptyLocalDB =
      (⟨true, 0, 0⟩, emptyLocalDB, []) ∧
    syncPendingReadings true .completes (fun _ => false) [] =
      (⟨true, 0, 0⟩, [SyncEvent.saveLastSyncTime]) :=
  syncToSupabase_emptyPending (fun _ => false) (fun _ => false) .completes
    emptyLocalDB [] rfl rfl

/-- C1 witness. -/
theorem syncToSupabase_no_data_loss_witness :
    findLeitura (syncToSupabase true .completes (fun _ => false)
        dbOnePending).2.1.leituras sampleLeitura.id = some sampleLeitura ∧
    sampleLeitura.sincronizado = 0 :=
  (syncToSupabase_no_data_loss (fun _ => false) dbOnePending sampleLeitura
    (by decide) (by decide)).1 rfl

/-! ### C9: referential insert order in down-sync -/

/-- Whether the executed prefix contains a rua row with the given key. -/
def hasRuaIns (ops : List InsertOp) (i : String) : Bool :=
  ops.any fun op => match op with | .rua r => r.id == i | _ => false

/-- Whether the executed prefix contains a bairro row with the given key. -/
def hasBairroIns (ops : List InsertOp) (i : String) : Bool :=
  ops.any fun op => match op with | .bairro b => b.id == i | _ => false

/-- Whether the executed prefix contains a residencia row with the given key. -/
def hasResidenciaIns (ops : List InsertOp) (i : String) : Bool :=
  ops.any fun op => match op with | .residencia r => r.id == i | _ => false

/-- Referential soundness of one insert against the already-executed prefix,
with the roteiro row included (the claim as stated: no inserted row may
reference a parent row not yet inserted). -/
def refOkFull (acc : List InsertOp) : InsertOp → Bool
  | .roteiro r => hasRuaIns acc r.rua_id
  | .bairro _ => true
  | .rua r => hasBairroIns acc r.bairro_id
  | .residencia r => hasRuaIns acc r.rua_id
  | .cliente c => hasResidenciaIns acc c.residencia_id

/-- The same check restricted to the bairro → rua → residencia → cliente
chain, leaving the roteiro row out. -/
def refOkChild (acc : List InsertOp) : InsertOp → Bool
  | .roteiro _ => true
  | .bairro _ => true
  | .rua r => hasBairroIns acc r.bairro_id
  | .residencia r => hasRuaIns acc r.rua_id
  | .cliente c => hasResidenciaIns acc c.residencia_id

/-- Every insert of the sequence passes the check `ref1` against the prefix
executed before it (on top of the initial prefix `acc`). -/
def refsOkFrom (ref1 : List InsertOp → InsertOp → Bool) :
    List InsertOp → List InsertOp → Bool
  | _, [] => true
  | acc, op :: rest => ref1 acc op && refsOkFrom ref1 (acc ++ [op]) rest

/-- No insert of the run references a parent row not yet inserted. -/
def danglingFree (ops : List InsertOp) : Bool := refsOkFrom refOkFull [] ops

/-- No insert of the bairro/rua/residencia/cliente chain references a parent
row not yet inserted. -/
def childRefsOk (ops : List InsertOp) : Bool := refsOkFrom refOkChild [] ops

theorem hasRuaIns_append (a b : List InsertOp) (i : String) :
    hasRuaIns (a ++ b) i = (hasRuaIns a i || hasRuaIns b i) := by
  simp [hasRuaIns, List.any_append]

theorem hasBairroIns_append (a b : List InsertOp) (i : String) :
    hasBairroIns (a ++ b) i = (hasBairroIns a i || hasBairroIns b i) := by
  simp [hasBairroIns, List.any_append]

theorem hasResidenciaIns_append (a b : List InsertOp) (i : String) :
    hasResidenciaIns (a ++ b) i = (hasResidenciaIns a i || hasResidenciaIns b i) := by
  simp [hasResidenciaIns, List.any_append]

theorem refsOkFrom_append (ref1 : List InsertOp → InsertOp → Bool)
    (l1 : List InsertOp) : ∀ (acc l2 : List InsertOp),
    refsOkFrom ref1 acc (l1 ++ l2) =
      (refsOkFrom ref1 acc l1 && refsOkFrom ref1 (acc ++ l1) l2) := by
  induction l1 with
  | nil => intro acc l2; simp [refsOkFrom]
  | cons op rest ih =>
    intro acc l2
    show (ref1 acc op && refsOkFrom ref1 (acc ++ [op]) (rest ++ l2)) =
      ((ref1 acc op && refsOkFrom ref1 (acc ++ [op]) rest) &&
        refsOkFrom ref1 (acc ++ op :: rest) l2)
    rw [ih (acc ++ [op]) l2, Bool.and_assoc]
    have hl : (acc ++ [op]) ++ rest = acc ++ op :: rest := by simp
    rw [hl]

theorem refsOkFrom_resOps (f : ExecFaults) (ruaId : String)
    (resList : List RemoteResidencia) : ∀ acc : List InsertOp,
    hasRuaIns acc ruaId = true →
    refsOkFrom refOkChild acc
      ((resList.map (processResidencia ruaId f)).map Prod.fst).flatten = true := by
  induction resList with
  | nil => intro acc _; rfl
  | cons res rest ih =>
    intro acc h
    simp only [List.map_cons, List.flatten_cons]
    rw [refsOkFrom_append]
    have hres : refsOkFrom refOkChild acc (processResidencia ruaId f res).1 = true ∧
        hasRuaIns (acc ++ (processResidencia ruaId f res).1) ruaId = true := by
      by_cases hf : f.residenciaFails res.id
      · have he : processResidencia ruaId f res = ([], 1) := by
          simp [processResidencia, hf]
        rw [he]
        exact ⟨rfl, by simpa using h⟩
      · have t1 : refOkChild acc (InsertOp.residencia ⟨res.id, ruaId, res.numero⟩)
            = true := h
        cases hc : res.clientes with
        | none =>
          have he : processResidencia ruaId f res =
              ([InsertOp.residencia ⟨res.id, ruaId, res.numero⟩], 0) := by
            simp [processResidencia, hf, hc]
          rw [he]
          refine ⟨?_, ?_⟩
          · show (refOkChild acc (InsertOp.residencia ⟨res.id, ruaId, res.numero⟩)
              && true) = true
            rw [t1]
            rfl
          · rw [hasRuaIns_append, h]
            rfl
        | some c =>
          by_cases hcf : f.clienteFails c.id
          · have he : processResidencia ruaId f res =
                ([InsertOp.residencia ⟨res.id, ruaId, res.numero⟩], 1) := by
              simp [processResidencia, hf, hc, hcf]
            rw [he]
            refine ⟨?_, ?_⟩
            · show (refOkChild acc (InsertOp.residencia ⟨res.id, ruaId, res.numero⟩)
                && true) = true
              rw [t1]
              rfl
            · rw [hasRuaIns_append, h]
              rfl
          · have he : processResidencia ruaId f res =
                ([InsertOp.residencia ⟨res.id, ruaId, res.numero⟩,
                  InsertOp.cliente ⟨c.id, c.nome, c.telefone, c.email, c.cpf, res.id⟩],
                  0) := by
              simp [processResidencia, hf, hc, hcf]
            rw [he]
            have t2 : refOkChild
                (acc ++ [InsertOp.residencia ⟨res.id, ruaId, res.numero⟩])
                (InsertOp.cliente ⟨c.id, c.nome, c.telefone, c.email, c.cpf, res.id⟩)
                = true := by
              show hasResidenciaIns
                (acc ++ [InsertOp.residencia ⟨res.id, ruaId, res.numero⟩]) res.id = true
              rw [hasResidenciaIns_append]
              simp [hasResidenciaIns]
            refine ⟨?_, ?_⟩
            · show (refOkChild acc (InsertOp.residencia ⟨res.id, ruaId, res.numero⟩)
                && (refOkChild
                  (acc ++ [InsertOp.residencia ⟨res.id, ruaId, res.numero⟩])
                  (InsertOp.cliente ⟨c.id, c.nome, c.telefone, c.email, c.cpf, res.id⟩)
                  && true)) = true
              rw [t1, t2]
              rfl
            · rw [hasRuaIns_append, h]
              rfl
    rw [hres.1, ih _ hres.2]
    rfl

theorem refsOkFrom_route (lid : String) (f : ExecFaults) (r : RemoteRoteiro)
    (acc : List InsertOp) :
    refsOkFrom refOkChild acc (processRoteiro lid f r).inserts = true := by
  unfold processRoteiro
  by_cases h1 : f.roteiroFails r.id
  · simp [h1, refsOkFrom]
  · by_cases h2 : f.bairroFails r.ruas.bairro_id.id
    · simp [h1, h2, refsOkFrom, refOkChild]
    · by_cases h3 : f.ruaFails r.ruas.id
      · simp [h1, h2, h3, refsOkFrom, refOkChild]
      · simp only [h1, h2, h3, Bool.false_eq_true, if_false]
        rw [refsOkFrom_append]
        have hpre : refsOkFrom refOkChild acc
            [InsertOp.roteiro ⟨r.id, lid, r.ruas.id, r.dia_semana⟩,
              InsertOp.bairro ⟨r.ruas.bairro_id.id, r.ruas.bairro_id.nome,
                r.ruas.bairro_id.cidade⟩,
              InsertOp.rua ⟨r.ruas.id, r.ruas.nome, r.ruas.bairro_id.id⟩] = true := by
          simp [refsOkFrom, refOkChild, hasBairroIns_append, hasBairroIns]
        have hrua : hasRuaIns (acc ++
            [InsertOp.roteiro ⟨r.id, lid, r.ruas.id, r.dia_semana⟩,
              InsertOp.bairro ⟨r.ruas.bairro_id.id, r.ruas.bairro_id.nome,
                r.ruas.bairro_id.cidade⟩,
              InsertOp.rua ⟨r.ruas.id, r.ruas.nome, r.ruas.bairro_id.id⟩])
            r.ruas.id = true := by
          simp [hasRuaIns_append, hasRuaIns]
        rw [hpre, refsOkFrom_resOps f r.ruas.id r.ruas.residencias _ hrua]
        rfl

theorem refsOkFrom_downRun (lid : String) (f : ExecFaults)
    (rs : List RemoteRoteiro) : ∀ acc : List InsertOp,
    refsOkFrom refOkChild acc (downRun lid f rs).inserts = true := by
  induction rs with
  | nil => intro acc; rfl
  | cons r rest ih =>
    intro acc
    show refsOkFrom refOkChild acc ((processRoteiro lid f r).inserts ++
      (downRun lid f rest).inserts) = true
    rw [refsOkFrom_append, refsOkFrom_route, ih]
    rfl

/-- C9 counterexample: already for a fault-free single-route graph the
executed insert sequence is not dangling-free as the claim states: the
roteiro row is the very first insert and references rua `RUA1` before any rua
row has been inserted. -/
theorem roteiro_before_rua_counterexample :
    danglingFree (downRun "LT1" noFaults [rotA]).inserts = false ∧
    (downRun "LT1" noFaults [rotA]).inserts.head? =
      some (InsertOp.roteiro ⟨"ROT1", "LT1", "RUA1", "Segunda-feira"⟩) := by
  decide

/-- C9 amended: within each route the bairro row is inserted before the rua
row, the rua row before each of its residencia rows, and each residencia row
before its cliente row — under every fault pattern, so no row of that chain
ever references a missing parent even under partial failure; the roteiro row
however is always inserted first, before the rua row its `rua_id` column
references. -/
theorem downSync_referential_order :
    (∀ lid f rs, childRefsOk (downRun lid f rs).inserts = true) ∧
    (∀ lid f r, f.roteiroFails r.id = false →
      (processRoteiro lid f r).inserts.head? =
        some (InsertOp.roteiro ⟨r.id, lid, r.ruas.id, r.dia_semana⟩)) := by
  constructor
  · intro lid f rs
    exact refsOkFrom_downRun lid f rs []
  · intro lid f r h
    unfold processRoteiro
    simp only [h, Bool.false_eq_true, if_false]
    by_cases h2 : f.bairroFails r.ruas.bairro_id.id
    · simp [h2]
    · by_cases h3 : f.ruaFails r.ruas.id <;> simp [h2, h3]

/-- C9 witness. -/
theorem downSync_referential_order_witness :
    childRefsOk (downRun "LT1" noFaults [rotA]).inserts = true ∧
    (processRoteiro "LT1" noFaults rotA).inserts.head? =
      some (InsertOp.roteiro ⟨"ROT1", "LT1", "RUA1", "Segunda-feira"⟩) :=
  ⟨downSync_referential_order.1 "LT1" noFaults [rotA],
    downSync_referential_order.2 "LT1" noFaults rotA rfl⟩

/-! ### C5 and C6: cancellation and classification in the retry helper -/

theorem retryGo_starts_before (op : Nat → AttemptResult × Nat) (ft mr md : Nat) :
    ∀ (l : List Nat) (d t : Nat) (starts : List Nat) (lm : String),
    (∀ s ∈ starts, s < ft) →
    ∀ s ∈ attemptStarts (retryGo op (some ft) mr md l d t starts lm), s < ft := by
  intro l
  induction l with
  | nil =>
    intro d t starts lm h
    simpa [retryGo, attemptStarts] using h
  | cons a rest ih =>
    intro d t starts lm h
    by_cases hab : signalAborted (some ft) t
    · have he : retryGo op (some ft) mr md (a :: rest) d t starts lm =
          .thrown "Operation aborted" starts t := by
        simp [retryGo, hab]
      rw [he]
      simpa [attemptStarts] using h
    · have ht : t < ft := Nat.lt_of_not_le (by simpa [signalAborted] using hab)
      have hstarts : ∀ s ∈ starts ++ [t], s < ft := by
        intro s hs
        rcases List.mem_append.mp hs with hs | hs
        · exact h s hs
        · have : s = t := by simpa using hs
          omega
      rcases hop : op a with ⟨res, dur⟩
      cases res with
      | ok =>
        have he : retryGo op (some ft) mr md (a :: rest) d t starts lm =
            .succeeded (starts ++ [t]) (t + dur) := by
          simp [retryGo, hab, hop]
        rw [he]
        simpa [attemptStarts] using hstarts
      | fail msg =>
        by_cases hab2 : signalAborted (some ft) (t + dur)
        · have he : retryGo op (some ft) mr md (a :: rest) d t starts lm =
              .thrown "Operation aborted" (starts ++ [t]) (t + dur) := by
            simp [retryGo, hab, hop, hab2]
          rw [he]
          simpa [attemptStarts] using hstarts
        · by_cases hre : (decide (a ≤ mr) && isPrematureCloseError msg) = true
          · have he : retryGo op (some ft) mr md (a :: rest) d t starts lm =
                retryGo op (some ft) mr md rest (min (d * 2) md) (t + dur + d)
                  (starts ++ [t]) msg := by
              simp [retryGo, hab, hop, hab2, hre]
            rw [he]
            exact ih _ _ _ _ hstarts
          · have he : retryGo op (some ft) mr md (a :: rest) d t starts lm =
                .thrown msg (starts ++ [t]) (t + dur) := by
              simp [retryGo, hab, hop, hab2, hre]
            rw [he]
            simpa [attemptStarts] using hstarts

/-- C5 counterexample: the wrapped operation fails once with a premature-close
error at time 0; the abort signal fires at time 100, during the first 2000 ms
backoff sleep.  The helper nevertheless returns only at time 2000: the sleep
runs to completion (it is a plain `setTimeout` that does not observe the
signal), so the claim that the sleep is interrupted and the helper returns
immediately is false. -/
theorem retry_sleep_counterexample :
    retryOnPrematureClose alwaysPrematureFail (some 100) repoRetryOptions =
      .thrown "Operation aborted" [0] 2000 ∧ (100 : Nat) < 2000 := by
  decide

/-- C5 amended: the retry helper observes the abort signal only at attempt
boundaries.  No attempt of the wrapped operation is ever started at or after
the instant the signal fires; but a signal firing during the backoff sleep
does not interrupt it — the sleep runs its full duration (here: the wrapper
returns the distinct "Operation aborted" error at time 2000, the end of the
first sleep, for every fire instant within that sleep). -/
theorem retry_cancellation_semantics (op : Nat → AttemptResult × Nat)
    (opts : RetryOptions) (ft : Nat) (h1 : 0 < ft) (h2 : ft ≤ 2000) :
    allStartsBefore (retryOnPrematureClose op (some ft) opts) ft = true ∧
    retryOnPrematureClose alwaysPrematureFail (some ft) repoRetryOptions =
      .thrown "Operation aborted" [0] 2000 := by
  constructor
  · rw [allStartsBefore, List.all_eq_true]
    intro s hs
    simp only [decide_eq_true_eq]
    exact retryGo_starts_before op ft opts.maxRetries opts.maxDelay _ _ _ _ _
      (by intro s h; cases h) s hs
  · have hft0 : signalAborted (some ft) 0 = false := by
      simp only [signalAborted, decide_eq_false_iff_not]
      omega
    have hft2 : signalAborted (some ft) 2000 = true := by
      simp only [signalAborted, decide_eq_true_eq]
      exact h2
    have hrange : List.range' 1 (repoRetryOptions.maxRetries + 1) = [1, 2, 3, 4] := by
      decide
    rw [retryOnPrematureClose, hrange]
    have hpc : isPrematureCloseError "premature close" = true := by decide
    simp [retryGo, alwaysPrematureFail, hft0, hft2, hpc, repoRetryOptions]

/-- C5 witness. -/
theorem retry_cancellation_semantics_witness :
    allStartsBefore (retryOnPrematureClose alwaysPrematureFail (some 100)
      repoRetryOptions) 100 = true ∧
    retryOnPrematureClose alwaysPrematureFail (some 100) repoRetryOptions =
      .thrown "Operation aborted" [0] 2000 :=
  retry_cancellation_semantics alwaysPrematureFail repoRetryOptions 100
    (by decide) (by decide)

/-- C6 counterexample: the per-request timeout errors produced by the timeout
races ("Supabase request timeout" and "Supabase insert timeout") are not
classified as premature-close errors, and the retry helper propagates such a
failure after a single attempt (`starts = [0]`), with no backoff retry —
contradicting the claim that per-request timeouts are retried with backoff. -/
theorem timeout_not_retried_counterexample :
    isPrematureCloseError "Supabase request timeout" = false ∧
    isPrematureCloseError "Supabase insert timeout" = false ∧
    retryOnPrematureClose (fun _ => (.fail "Supabase request timeout", 0)) none
      repoRetryOptions = .thrown "Supabase request timeout" [0] 0 := by
  decide

/-- C6 amended: the retry helper retries exactly the premature-close class of
errors (the six fixed substrings of `isPrematureCloseError`).  Every other
failure — per-request timeouts included, as well as connection resets, DNS
failures and validation/auth rejections — propagates on its first occurrence
without a retry; a persistent premature-close failure is retried with the
doubling backoff until the budget is exhausted (attempt starts 0, 2000, 6000,
14000 with the repository's options). -/
theorem retry_classification (msg : String)
    (h : isPrematureCloseError msg = false) :
    retryOnPrematureClose (fun _ => (.fail msg, 0)) none repoRetryOptions =
      .thrown msg [0] 0 ∧
    retryOnPrematureClose alwaysPrematureFail none repoRetryOptions =
      .thrown "premature close" [0, 2000, 6000, 14000] 14000 := by
  constructor
  · have hrange : List.range' 1 (repoRetryOptions.maxRetries + 1) = [1, 2, 3, 4] := by
      decide
    rw [retryOnPrematureClose, hrange]
    simp [retryGo, signalAborted, h, repoRetryOptions]
  · decide

/-- C6 witness. -/
theorem retry_classification_witness :
    retryOnPrematureClose (fun _ => (.fail "Supabase insert timeout", 0)) none
      repoRetryOptions = .thrown "Supabase insert timeout" [0] 0 ∧
    retryOnPrematureClose alwaysPrematureFail none repoRetryOptions =
      .thrown "premature close" [0, 2000, 6000, 14000] 14000 :=
  retry_classification "Supabase insert timeout" (by decide)

/-- C10 witness. -/
theorem syncToSupabase_accounting_witness :
    (syncToSupabase true .completes (fun _ => true) dbOnePending).1.syncedCount +
        (syncToSupabase true .completes (fun _ => true) dbOnePending).1.errorCount =
      ((pendingLeituras dbOnePending).length : Int) ∧
    ((syncToSupabase true .completes (fun _ => true) dbOnePending).1.success = true ↔
      (syncToSupabase true .completes (fun _ => true) dbOnePending).1.errorCount = 0) :=
  syncToSupabase_accounting (fun _ => true) dbOnePending (by decide)

end WaterMeterSync
